import Mathlib

/-!
Verification development for the type-marshaling layer of
`azure/functions_worker/bindings/meta.py`: the `Datum` tagged-union value
with its wire conversions, the iterable-type-annotation matcher, the
binding registry lookup, and the decode/encode facade.

The embedding is shallow: each Python function of `meta.py` becomes a Lean
function over explicit data; Python exceptions become an error type carried
in `Except`.  The wire-message schema (`protos.TypedData` / `protos.RpcHttp`)
is external to the module and is embedded from its fixed field layout.
-/

set_option autoImplicit false
set_option linter.unusedVariables false

namespace Meta

/-- Python exceptions that the code in `meta.py` can raise or observe:
`NotImplementedError` (the unimplemented-conversion signal), `TypeError`,
`NameError` (reference to an undefined name), `KeyError` (missing mapping
key) and `AttributeError` (missing attribute). -/
inductive PyErr where
  | notImplementedError (msg : String)
  | typeError (msg : String)
  | nameError (msg : String)
  | keyError (key : String)
  | attributeError (msg : String)
deriving DecidableEq, Repr

mutual
/-- Python runtime values that flow through `Datum.value`: strings, byte
strings (as lists of byte values), dictionaries (as insertion-ordered
key-value sequences, the order Python dicts preserve), nested `Datum`
objects (`datum value type`), `None`, and integers. -/
inductive PyVal where
  | str (s : String)
  | bytes (b : List Nat)
  | dict (entries : PyDict)
  | datum (value : PyVal) (type : String)
  | pyNone
  | int (n : Int)
deriving DecidableEq
/-- An insertion-ordered Python dictionary with string keys and `PyVal`
values (a separate inductive so that equality stays structural). -/
inductive PyDict where
  | nil
  | cons (key : String) (val : PyVal) (rest : PyDict)
deriving DecidableEq
end

/-- Build a `PyDict` from a list of key-value pairs, in order. -/
def PyDict.ofList : List (String × PyVal) → PyDict
  | [] => .nil
  | (k, v) :: rest => .cons k v (PyDict.ofList rest)

/-- Models Python dict subscripting for string keys: the first entry with
the given key, if any. -/
def PyDict.get : PyDict → String → Option PyVal
  | .nil, _ => Option.none
  | .cons k v rest, key => if k == key then some v else rest.get key

/-- The `Datum` object of `meta.py`: a payload `value` and a wire-kind tag
`type`.  The `cls` field records the concrete Python class of the object
(always `"Datum"` for objects made by this module; the class enters
`__eq__` via `isinstance(other, type(self))` and `__hash__` via
`type(self)`). -/
structure Datum where
  cls : String
  value : PyVal
  type : String
deriving DecidableEq

/-- The Python constructor call `Datum(value, type)` (`__init__` stores the
two arguments; no validation). -/
def mkDatum (value : PyVal) (type : String) : Datum :=
  { cls := "Datum", value := value, type := type }

/-- Models `Datum.__eq__` applied to another `Datum`:
`isinstance(other, type(self))` (same concrete class, as no subclasses of
`Datum` exist in the program) and `self.value == other.value and
self.type == other.type`. -/
def datumEq (a b : Datum) : Bool :=
  a.cls == b.cls && (a.value == b.value && a.type == b.type)

/-- Models `Datum.__hash__`: the hash is `hash((type(self), (self.value,
self.type)))`, i.e. any fixed hash function applied to this key tuple; two
objects with equal key tuples hash identically. -/
def Datum.hashKey (d : Datum) : String × PyVal × String :=
  (d.cls, (d.value, d.type))

/-- The wire message `protos.TypedData`: a oneof with fields `string`,
`bytes`, `json`, `http`, plus (representing the further fields of the
fixed protocol schema that `meta.py` does not handle) `int` and `stream`;
`unset` is a `TypedData` message with no oneof field populated, which is
what reading an unset message-typed field yields.  The nested
`protos.RpcHttp` message is flattened into the `http` constructor: fields
`method`, `url`, `headers`, `params`, `query`, `rawBody`, `status_code`,
`body`, `enable_content_negotiation`, in that order. -/
inductive TypedData where
  | string (s : String)
  | bytes (b : List Nat)
  | json (s : String)
  | http (method url : String)
         (headers params query : List (String × String))
         (rawBody : TypedData)
         (status_code : String)
         (body : TypedData)
         (ecn : Bool)
  | int (n : Int)
  | stream (b : List Nat)
  | unset
deriving DecidableEq

/-- Models `td.WhichOneof(\x27data\x27)`: the name of the populated oneof
field, or `none` (Python `None`) when no field is populated. -/
def TypedData.whichOneof : TypedData → Option String
  | .string _ => some "string"
  | .bytes _ => some "bytes"
  | .json _ => some "json"
  | .http _ _ _ _ _ _ _ _ _ => some "http"
  | .int _ => some "int"
  | .stream _ => some "stream"
  | .unset => Option.none

/-- Python `repr` of a short string: the string between single quotes. -/
def pyRepr (s : String) : String := "\x27" ++ s ++ "\x27"

/-- Python `repr` of `WhichOneof`'s result: `repr` of the field-name string,
or `None` rendered without quotes. -/
def optRepr : Option String → String
  | some s => pyRepr s
  | Option.none => "None"

/-- Models `Datum.as_proto`.  The `string`, `bytes` and `json` branches set
the corresponding wire field (protobuf rejects a value of the wrong Python
type with a `TypeError`).  The `http` branch evaluates the keyword
arguments of `protos.RpcHttp(...)` left to right: first
`self.value[\x27status_code\x27].value` (which can raise `TypeError` on a
non-dict value, `KeyError` on a missing key, `AttributeError` on a
non-`Datum` entry), and then the expression `headers.items()` — but no
name `headers` is bound in `as_proto` or at module level, so this raises
`NameError: name \x27headers\x27 is not defined` before any message can be
built.  Any other tag raises `NotImplementedError`. -/
def Datum.as_proto (d : Datum) : Except PyErr TypedData :=
  if d.type = "string" then
    match d.value with
    | .str s => .ok (.string s)
    | _ => .error (.typeError "expected str for field string")
  else if d.type = "bytes" then
    match d.value with
    | .bytes b => .ok (.bytes b)
    | _ => .error (.typeError "expected bytes for field bytes")
  else if d.type = "json" then
    match d.value with
    | .str s => .ok (.json s)
    | _ => .error (.typeError "expected str for field json")
  else if d.type = "http" then
    match d.value with
    | .dict entries =>
      match entries.get "status_code" with
      | Option.none => .error (.keyError "status_code")
      | some sc =>
        match sc with
        | .datum _ _ => .error (.nameError "name \x27headers\x27 is not defined")
        | _ => .error (.attributeError "object has no attribute \x27value\x27")
    | _ => .error (.typeError "value is not subscriptable")
  else
    .error (.notImplementedError ("unexpected Datum type: " ++ pyRepr d.type))

/-- Models the classmethod `Datum.from_typed_data`: branches on the
populated oneof field.  The `http` branch first decodes `http.rawBody`
recursively (a raised error propagates) and then builds the mapping with
keys `method`, `url`, `headers`, `body`, `params`, `query`, wrapping the
string fields in string-tagged Datums; `string`, `bytes` and `json`
unwrap the scalar; any other discriminant (including `None` for an unset
message) raises `NotImplementedError`. -/
def Datum.from_typed_data : TypedData → Except PyErr Datum
  | .http method url headers params query rawBody _ _ _ =>
    match Datum.from_typed_data rawBody with
    | .error e => .error e
    | .ok body =>
      .ok (mkDatum (.dict (PyDict.ofList
        [ ("method", .datum (.str method) "string"),
          ("url", .datum (.str url) "string"),
          ("headers", .dict (PyDict.ofList (headers.map
            (fun kv => (kv.1, PyVal.datum (.str kv.2) "string"))))),
          ("body", .datum body.value body.type),
          ("params", .dict (PyDict.ofList (params.map
            (fun kv => (kv.1, PyVal.datum (.str kv.2) "string"))))),
          ("query", .dict (PyDict.ofList (query.map
            (fun kv => (kv.1, PyVal.datum (.str kv.2) "string"))))) ]))
        "http")
  | .string s => .ok (mkDatum (.str s) "string")
  | .bytes b => .ok (mkDatum (.bytes b) "bytes")
  | .json s => .ok (mkDatum (.str s) "json")
  | td => .error (.notImplementedError
      ("unsupported TypeData kind: " ++ optRepr td.whichOneof))

/-- The round trip of the spec's testable property: convert a `Datum` to
the wire format and decode the wire message back. -/
def roundtrip (d : Datum) : Except PyErr Datum :=
  match d.as_proto with
  | .error e => .error e
  | .ok td => Datum.from_typed_data td

/-- Models `type(obj).__name__` for the Python values of the embedding. -/
def PyVal.typeName : PyVal → String
  | .str _ => "str"
  | .bytes _ => "bytes"
  | .dict _ => "dict"
  | .datum _ _ => "Datum"
  | .pyNone => "NoneType"
  | .int _ => "int"

/-- A binding object, the external capability the registry stores: `name`
is the display string Python would interpolate for the object in an error
message; `decode` models `binding.decode(datum, trigger_metadata=...)`
returning a native value or raising; `encode` models
`binding.encode(obj, expected_type=...)` returning a `Datum` or raising.
An error result of kind `notImplementedError` is the unimplemented-
conversion signal of the binding interface. -/
structure Binding where
  name : String
  decode : Datum → List (String × Datum) → Except PyErr PyVal
  encode : PyVal → Option String → Except PyErr Datum

/-- Modelled from the spec: the generic fallback binding
(`generic.GenericBinding`, imported from a module of this repository that
is not included under `src/`).  The spec describes it only as the
"generic pass-through binding" used when no specific implementation is
registered; its conversion behaviour is irrelevant to the claims, so it
passes Datums through: `decode` returns the datum itself as a native
value, `encode` accepts a `Datum` value unchanged and signals
unimplemented-conversion for anything else. -/
def GenericBinding : Binding where
  name := "<class \x27azure.functions_worker.bindings.generic.GenericBinding\x27>"
  decode := fun d _ => .ok (.datum d.value d.type)
  encode := fun v _ =>
    match v with
    | .datum dv dt => .ok (mkDatum dv dt)
    | _ => .error (.notImplementedError "unable to encode")

/-- The process-wide state `get_binding_registry` inspects:
`azureFunctions` is `some registry` when the module `azure.functions` is
present in `sys.modules` (in which case its `get_registry()` yields the
registry, a dict from binding name to binding), and `none` when the
module is not loaded. -/
structure ProcState where
  azureFunctions : Option (List (String × Binding))

/-- Python dict `get` on the registry: first entry with the key, else
`None`. -/
def registryGet (reg : List (String × Binding)) (k : String) : Option Binding :=
  (reg.find? (fun p => p.1 == k)).map (fun p => p.2)

/-- Models `get_binding_registry()`: the loaded module's registry, or
`None` when `sys.modules.get(\x27azure.functions\x27)` is `None`. -/
def get_binding_registry (st : ProcState) : Option (List (String × Binding)) :=
  st.azureFunctions

/-- Models `get_binding(bind_name)`: look the name up in the registry when
one is present; fall back to `generic.GenericBinding` when the registry is
absent or has no entry. -/
def get_binding (st : ProcState) (bind_name : String) : Binding :=
  let binding : Option Binding :=
    match get_binding_registry st with
    | some registry => registryGet registry bind_name
    | Option.none => Option.none
  match binding with
  | some b => b
  | Option.none => GenericBinding

/-- The dict comprehension of `from_incoming_proto` building the metadata
map: converts every entry of `trigger_metadata` with
`Datum.from_typed_data`, in order; the first raised error propagates. -/
def metadataFromProto : List (String × TypedData) → Except PyErr (List (String × Datum))
  | [] => .ok []
  | (k, v) :: rest =>
    match Datum.from_typed_data v with
    | .error e => .error e
    | .ok d =>
      match metadataFromProto rest with
      | .error e => .error e
      | .ok r => .ok ((k, d) :: r)

/-- Models `from_incoming_proto(binding, val, *, pytype, trigger_metadata)`:
resolve the binding, convert `val`, build the metadata map (calling
`.items()` on `trigger_metadata`, which raises `AttributeError` when the
argument is `None`), delegate to `binding.decode`, and turn the binding's
`NotImplementedError` into the diagnostic `TypeError` built from the wire
discriminant `val.WhichOneof(\x27data\x27)` and the binding object.  The
parameter `pytype` is accepted and unused, as in the source. -/
def from_incoming_proto (st : ProcState) (binding : String) (val : TypedData)
    (pytype : Option String)
    (trigger_metadata : Option (List (String × TypedData))) : Except PyErr PyVal :=
  let b := get_binding st binding
  match Datum.from_typed_data val with
  | .error e => .error e
  | .ok datum =>
    match trigger_metadata with
    | Option.none =>
      .error (.attributeError "\x27NoneType\x27 object has no attribute \x27items\x27")
    | some tm =>
      match metadataFromProto tm with
      | .error e => .error e
      | .ok metadata =>
        match b.decode datum metadata with
        | .ok res => .ok res
        | .error (.notImplementedError _) =>
          .error (.typeError
            ("unable to decode incoming TypedData: unsupported combination of TypedData field "
              ++ optRepr val.whichOneof ++ " and expected binding type " ++ b.name))
        | .error e => .error e

/-- Models `to_outgoing_proto(binding, obj, *, pytype)`: resolve the
binding, delegate to `binding.encode`, turn its `NotImplementedError` into
the diagnostic `TypeError` naming the binding object and
`type(obj).__name__`, and otherwise return `datum.as_proto()`. -/
def to_outgoing_proto (st : ProcState) (binding : String) (obj : PyVal)
    (pytype : Option String) : Except PyErr TypedData :=
  let b := get_binding st binding
  match b.encode obj pytype with
  | .ok datum => datum.as_proto
  | .error (.notImplementedError _) =>
    .error (.typeError
      ("unable to encode outgoing TypedData: unsupported type \x22" ++ b.name
        ++ "\x22 for Python type \x22" ++ obj.typeName ++ "\x22"))
  | .error e => .error e

/-- A Python object as seen by the type-annotation matcher: `prim n` is a
concrete class named `n` (an instance of `type`), `generic o args` is a
parameterized generic alias whose origin class is named `o` (such as
`List[int]`, origin `list`), `union args` is a `typing.Union[...]` value
(not a class), `tup elems` is a tuple object (the tuple-of-candidates
form), and `obj n` is any other non-type object. -/
inductive PyType where
  | prim (name : String)
  | generic (origin : String) (args : List PyType)
  | union (args : List PyType)
  | tup (elems : List PyType)
  | obj (name : String)

/-- The strict superclasses of each concrete class of the embedding, by
name; `collections.abc.Iterable` appears as `"Iterable"`.  Every class is
a subclass of `object`; `bool` is a subclass of `int`; the built-in
containers and `str` are subclasses of `Iterable`. -/
def supers : String → List String
  | "bool" => ["int", "object"]
  | "list" => ["Iterable", "object"]
  | "tuple" => ["Iterable", "object"]
  | "set" => ["Iterable", "object"]
  | "dict" => ["Iterable", "object"]
  | "str" => ["Iterable", "object"]
  | "bytes" => ["Iterable", "object"]
  | "Iterable" => ["object"]
  | _ => ["object"]

/-- Models `isinstance(x, type)`: true exactly for concrete classes. -/
def isType : PyType → Bool
  | .prim _ => true
  | _ => false

/-- Boolean subclass test between two concrete classes, by name. -/
def primSub (t a : PyType) : Bool :=
  match t, a with
  | .prim x, .prim y => x == y || (supers x).contains y
  | _, _ => false

/-- Models the builtin `issubclass(t, arg)`: defined when both arguments
are classes; raises `TypeError` otherwise (in particular when `arg` is a
`typing.Union[...]` or another subscripted generic, which is not a
class). -/
def pyIssubclass (t arg : PyType) : Except PyErr Bool :=
  match t with
  | .prim x =>
    match arg with
    | .prim y => .ok (x == y || (supers x).contains y)
    | _ => .error (.typeError "issubclass() arg 2 must be a class or tuple of classes")
  | _ => .error (.typeError "issubclass() arg 1 must be a class")

/-- Modelled from the spec: `typing_inspect.is_generic_type` (the module
`azure.functions_worker.typing_inspect` is not included under `src/`) —
true exactly for parameterized generic type aliases. -/
def is_generic_type : PyType → Bool
  | .generic _ _ => true
  | _ => false

/-- Modelled from the spec: `typing_inspect.get_origin` — the origin class
of a parameterized generic (only ever applied under an `is_generic_type`
guard; `None`, rendered as a non-type object, otherwise). -/
def get_origin : PyType → PyType
  | .generic o _ => .prim o
  | _ => .obj "None"

/-- Modelled from the spec: `typing_inspect.get_args` — the type arguments
of a parameterized generic, the empty tuple otherwise. -/
def get_args : PyType → List PyType
  | .generic _ args => args
  | _ => []

/-- Python's `any(...)` over a generator whose element test can raise:
stops at the first `true`, propagates the first raised error. -/
def exceptAny {α : Type} (f : α → Except PyErr Bool) : List α → Except PyErr Bool
  | [] => .ok false
  | x :: xs =>
    match f x with
    | .error e => .error e
    | .ok true => .ok true
    | .ok false => exceptAny f xs

/-- Models `is_iterable_type_annotation(annotation, pytype)`:
`is_generic_type(annotation) and issubclass(get_origin(annotation),
collections.abc.Iterable)` gates the check (short-circuit `and`); an
annotation without type arguments gives `False`; a tuple candidate uses
`any(isinstance(t, type) and issubclass(t, arg) for t in pytype for arg
in args)`, a single candidate the analogous single loop.  Only the left
side of each comparison is guarded with `isinstance(_, type)`; the
builtin `issubclass` itself raises on a non-class `arg`. -/
def is_iterable_type_annotation (anno : PyType) (pytype : PyType) : Except PyErr Bool :=
  let gate : Except PyErr Bool :=
    match is_generic_type anno with
    | true => pyIssubclass (get_origin anno) (.prim "Iterable")
    | false => .ok false
  match gate with
  | .error e => .error e
  | .ok is_iterable_anno =>
    match is_iterable_anno with
    | false => .ok false
    | true =>
      match get_args anno with
      | [] => .ok false
      | a0 :: rest =>
        match pytype with
        | .tup ts =>
          exceptAny (fun t =>
            exceptAny (fun arg =>
              if isType t then pyIssubclass t arg else .ok false) (a0 :: rest)) ts
        | _ =>
          exceptAny (fun arg =>
            if isType pytype then pyIssubclass pytype arg else .ok false) (a0 :: rest)

example : is_iterable_type_annotation (.generic "list" [.prim "int"]) (.prim "int")
    = .ok true := rfl
example : is_iterable_type_annotation (.generic "list" [.prim "int"]) (.prim "str")
    = .ok false := rfl
example : is_iterable_type_annotation (.prim "int") (.prim "int") = .ok false := rfl
example : is_iterable_type_annotation
      (.generic "list" [.union [.prim "int", .prim "str"]]) (.tup [.prim "int"])
    = .error (.typeError "issubclass() arg 2 must be a class or tuple of classes") := rfl

example : roundtrip (mkDatum (.str "hello") "string")
    = .ok (mkDatum (.str "hello") "string") := rfl
example : roundtrip (mkDatum (.bytes [1, 2]) "bytes")
    = .ok (mkDatum (.bytes [1, 2]) "bytes") := rfl
example : roundtrip (mkDatum (.str "[1]") "json")
    = .ok (mkDatum (.str "[1]") "json") := rfl
example : roundtrip (mkDatum
      (.dict (PyDict.ofList
        [ ("status_code", .datum (.str "200") "string"),
          ("headers", .dict .nil),
          ("body", .datum (.str "x") "string") ])) "http")
    = .error (.nameError "name \x27headers\x27 is not defined") := rfl

/-! Claim theorems. -/

/-- C8: two Datums are equal under `Datum.__eq__` iff they are the same
concrete kind of object and their `(value, type)` pairs are equal; the
hash key `(type(self), (value, type))` is determined by that data, so
equal Datums hash identically; two Datums constructed independently from
the same `(value, type)` pair compare equal with identical hash keys. -/
theorem c8_datum_eq_hash (a b : Datum) :
    (datumEq a b = true ↔ a.cls = b.cls ∧ a.value = b.value ∧ a.type = b.type) ∧
    (datumEq a b = true → a.hashKey = b.hashKey) ∧
    (∀ v t, datumEq (mkDatum v t) (mkDatum v t) = true ∧
      (mkDatum v t).hashKey = (mkDatum v t).hashKey) := by
  refine ⟨by simp [datumEq], ?_, ?_⟩
  · intro h
    have h2 : a.cls = b.cls ∧ a.value = b.value ∧ a.type = b.type := by
      simpa [datumEq] using h
    simp [Datum.hashKey, h2.1, h2.2.1, h2.2.2]
  · intro v t
    exact ⟨by simp [datumEq], rfl⟩

/-- Witness for C8 at a concrete pair of independently built Datums. -/
theorem c8_datum_eq_hash_witness :
    datumEq (mkDatum (.str "abc") "string") (mkDatum (.str "abc") "string") = true ∧
    (mkDatum (.str "abc") "string").hashKey = (mkDatum (.str "abc") "string").hashKey := by
  have h := c8_datum_eq_hash (mkDatum (.str "abc") "string") (mkDatum (.str "abc") "string")
  have he := h.1.mpr ⟨rfl, rfl, rfl⟩
  exact ⟨he, h.2.1 he⟩

/-- The failing input for C2: an http Datum whose value mapping has the
`status_code`, `headers` and `body` entries the claim describes. -/
def c2HttpDatum : Datum :=
  mkDatum (.dict (PyDict.ofList
    [ ("status_code", .datum (.str "200") "string"),
      ("headers", .dict (PyDict.ofList [("a", .datum (.str "b") "string")])),
      ("body", .datum (.str "payload") "string") ])) "http"

/-- C2: the claim describes the intended behaviour (read `headers` and
`body` from the Datum's own value mapping), but on a well-shaped http
Datum the code evaluates the undefined enclosing-scope name `headers` and
raises `NameError` instead of producing any wire message. -/
theorem c2_http_as_proto_name_error :
    c2HttpDatum.as_proto = .error (.nameError "name \x27headers\x27 is not defined") := rfl

/-- C1 (amended): the round trip
`Datum.from_typed_data(Datum(v, k).as_proto()) == Datum(v, k)` holds for
the wire kinds `string`, `bytes` and `json` with a value of the required
shape; the `http` kind is excluded (see the counterexample). -/
theorem c1_roundtrip_scalar (v : PyVal) (k : String)
    (h : (k = "string" ∧ ∃ s, v = .str s) ∨ (k = "bytes" ∧ ∃ b, v = .bytes b) ∨
         (k = "json" ∧ ∃ s, v = .str s)) :
    ∃ d, roundtrip (mkDatum v k) = .ok d ∧ datumEq d (mkDatum v k) = true := by
  rcases h with ⟨hk, s, hv⟩ | ⟨hk, b, hv⟩ | ⟨hk, s, hv⟩ <;> subst hk <;> subst hv <;>
    exact ⟨_, rfl, by simp [datumEq]⟩

/-- Witness for C1 at a concrete string Datum. -/
theorem c1_roundtrip_scalar_witness :
    ∃ d, roundtrip (mkDatum (.str "hello") "string") = .ok d ∧
      datumEq d (mkDatum (.str "hello") "string") = true :=
  c1_roundtrip_scalar (.str "hello") "string" (Or.inl ⟨rfl, "hello", rfl⟩)

/-- The concrete http input refuting C1 as stated. -/
def c1HttpDatum : Datum :=
  mkDatum (.dict (PyDict.ofList
    [ ("status_code", .datum (.str "204") "string"),
      ("headers", .dict .nil),
      ("body", .datum (.str "") "string") ])) "http"

/-- C1 counterexample: for the supported wire kind `http` with a value of
the shape `as_proto` requires, the round trip raises (`NameError` on the
undefined name `headers`) and in particular never returns a Datum equal
to the original. -/
theorem c1_http_roundtrip_fails :
    roundtrip c1HttpDatum = .error (.nameError "name \x27headers\x27 is not defined") ∧
    ¬ ∃ d, roundtrip c1HttpDatum = .ok d ∧ datumEq d c1HttpDatum = true := by
  have h1 : roundtrip c1HttpDatum
      = .error (.nameError "name \x27headers\x27 is not defined") := rfl
  refine ⟨h1, ?_⟩
  rintro ⟨d, hd, -⟩
  rw [h1] at hd
  exact Except.noConfusion hd

/-- C9: a Datum whose tag is outside the supported set makes `as_proto`
raise the unimplemented-conversion error naming the tag, and a wire
message whose populated field is outside the set makes `from_typed_data`
raise the unimplemented-conversion error naming the discriminant. -/
theorem c9_unsupported_kinds (d : Datum) (td : TypedData)
    (h1 : d.type ≠ "string" ∧ d.type ≠ "bytes" ∧ d.type ≠ "json" ∧ d.type ≠ "http")
    (h2 : td.whichOneof ≠ some "string" ∧ td.whichOneof ≠ some "bytes" ∧
          td.whichOneof ≠ some "json" ∧ td.whichOneof ≠ some "http") :
    d.as_proto = .error (.notImplementedError ("unexpected Datum type: " ++ pyRepr d.type)) ∧
    Datum.from_typed_data td = .error (.notImplementedError
      ("unsupported TypeData kind: " ++ optRepr td.whichOneof)) := by
  obtain ⟨h1s, h1b, h1j, h1h⟩ := h1
  constructor
  · simp [Datum.as_proto, h1s, h1b, h1j, h1h]
  · cases td with
    | string s => exact absurd rfl h2.1
    | bytes b => exact absurd rfl h2.2.1
    | json s => exact absurd rfl h2.2.2.1
    | http m u hs ps qs rb sc bd e => exact absurd rfl h2.2.2.2
    | int n => rfl
    | stream b => rfl
    | unset => rfl

/-- Witness for C9 at the `int` tag and the `int` wire field. -/
theorem c9_unsupported_kinds_witness :
    (mkDatum (.int 5) "int").as_proto
      = .error (.notImplementedError ("unexpected Datum type: " ++ pyRepr "int")) ∧
    Datum.from_typed_data (.int 7)
      = .error (.notImplementedError ("unsupported TypeData kind: " ++ pyRepr "int")) :=
  c9_unsupported_kinds (mkDatum (.int 5) "int") (.int 7)
    ⟨by decide, by decide, by decide, by decide⟩
    ⟨by decide, by decide, by decide, by decide⟩

/-- C10: although `trigger_metadata` is declared Optional, passing `None`
makes `from_incoming_proto` fail with an `AttributeError` while building
the metadata map (for every process state and binding name, so before any
binding's `decode` can be consulted), rather than treating `None` as an
empty metadata map. -/
theorem c10_none_metadata (st : ProcState) (bname : String) (val : TypedData)
    (pt : Option String) (datum : Datum)
    (h : Datum.from_typed_data val = .ok datum) :
    from_incoming_proto st bname val pt Option.none
      = .error (.attributeError "\x27NoneType\x27 object has no attribute \x27items\x27") := by
  simp [from_incoming_proto, h]

/-- Witness for C10 at a concrete string wire value. -/
theorem c10_none_metadata_witness :
    from_incoming_proto ⟨Option.none⟩ "blob" (.string "x") Option.none Option.none
      = .error (.attributeError "\x27NoneType\x27 object has no attribute \x27items\x27") :=
  c10_none_metadata ⟨Option.none⟩ "blob" (.string "x") Option.none
    (mkDatum (.str "x") "string") rfl

/-- C5: `get_binding` always returns a binding: the generic fallback when
the registry is absent or lacks the name, and the registry's entry
otherwise. -/
theorem c5_get_binding_total (st : ProcState) (name : String) :
    (get_binding_registry st = Option.none → get_binding st name = GenericBinding) ∧
    (∀ reg, get_binding_registry st = some reg → registryGet reg name = Option.none →
      get_binding st name = GenericBinding) ∧
    (∀ reg b, get_binding_registry st = some reg → registryGet reg name = some b →
      get_binding st name = b) := by
  refine ⟨?_, ?_, ?_⟩
  · intro h; simp [get_binding, h]
  · intro reg h1 h2; simp [get_binding, h1, h2]
  · intro reg b h1 h2; simp [get_binding, h1, h2]

/-- A registered binding used to witness C5. -/
def c5SampleBinding : Binding where
  name := "c5SampleBinding"
  decode := fun d _ => .ok (.datum d.value d.type)
  encode := fun _ _ => .error (.notImplementedError "unsupported")

/-- Witness for C5: a registered name resolves to its entry; an
unregistered name and an absent registry resolve to the fallback. -/
theorem c5_get_binding_total_witness :
    get_binding ⟨some [("queue", c5SampleBinding)]⟩ "queue" = c5SampleBinding ∧
    get_binding ⟨some [("queue", c5SampleBinding)]⟩ "blob" = GenericBinding ∧
    get_binding ⟨Option.none⟩ "queue" = GenericBinding :=
  ⟨(c5_get_binding_total ⟨some [("queue", c5SampleBinding)]⟩ "queue").2.2
      [("queue", c5SampleBinding)] c5SampleBinding rfl rfl,
   (c5_get_binding_total ⟨some [("queue", c5SampleBinding)]⟩ "blob").2.1
      [("queue", c5SampleBinding)] rfl rfl,
   (c5_get_binding_total ⟨Option.none⟩ "queue").1 rfl⟩

/-- C4: when the resolved binding's `decode` signals the
unimplemented-conversion kind, `from_incoming_proto` raises a `TypeError`
whose message interpolates the populated wire discriminant
(`val.WhichOneof`, in Python `repr`) and the binding object's display
string; when `decode` succeeds, its native result is returned unchanged. -/
theorem c4_decode_diagnostics (st : ProcState) (bname : String) (val : TypedData)
    (pt : Option String) (tm : List (String × TypedData)) (datum : Datum)
    (metadata : List (String × Datum))
    (h1 : Datum.from_typed_data val = .ok datum)
    (h2 : metadataFromProto tm = .ok metadata) :
    (∀ msg, (get_binding st bname).decode datum metadata
        = .error (.notImplementedError msg) →
      from_incoming_proto st bname val pt (some tm) = .error (.typeError
        ("unable to decode incoming TypedData: unsupported combination of TypedData field "
          ++ optRepr val.whichOneof ++ " and expected binding type "
          ++ (get_binding st bname).name))) ∧
    (∀ res, (get_binding st bname).decode datum metadata = .ok res →
      from_incoming_proto st bname val pt (some tm) = .ok res) := by
  constructor
  · intro msg h3; simp [from_incoming_proto, h1, h2, h3]
  · intro res h3; simp [from_incoming_proto, h1, h2, h3]

/-- A binding whose `decode` always signals unimplemented-conversion, used
to witness the C4 error path. -/
def c4RejectingBinding : Binding where
  name := "c4RejectingBinding"
  decode := fun _ _ => .error (.notImplementedError "cannot decode")
  encode := fun _ _ => .error (.notImplementedError "cannot encode")

/-- A binding whose `decode` succeeds, used to witness the C4 success
path. -/
def c4AcceptingBinding : Binding where
  name := "c4AcceptingBinding"
  decode := fun d _ => .ok (.datum d.value d.type)
  encode := fun v _ => .ok (mkDatum v "json")

/-- Witness for C4: the diagnostic on a rejecting binding carries the
discriminant and the binding display string; an accepting binding's
result passes through. -/
theorem c4_decode_diagnostics_witness :
    from_incoming_proto ⟨some [("b", c4RejectingBinding)]⟩ "b" (.string "x")
        Option.none (some [])
      = .error (.typeError
        ("unable to decode incoming TypedData: unsupported combination of TypedData field "
          ++ optRepr (TypedData.string "x").whichOneof ++ " and expected binding type "
          ++ c4RejectingBinding.name)) ∧
    from_incoming_proto ⟨some [("b", c4AcceptingBinding)]⟩ "b" (.string "x")
        Option.none (some [])
      = .ok (.datum (.str "x") "string") :=
  ⟨(c4_decode_diagnostics ⟨some [("b", c4RejectingBinding)]⟩ "b" (.string "x")
      Option.none [] (mkDatum (.str "x") "string") [] rfl rfl).1 "cannot decode" rfl,
   (c4_decode_diagnostics ⟨some [("b", c4AcceptingBinding)]⟩ "b" (.string "x")
      Option.none [] (mkDatum (.str "x") "string") [] rfl rfl).2
      (.datum (.str "x") "string") rfl⟩

/-- C7: when the resolved binding's `encode` signals the
unimplemented-conversion kind, `to_outgoing_proto` raises a `TypeError`
naming the binding object and `type(obj).__name__`; otherwise the Datum
returned by `encode` is converted via its own `as_proto()` and that
result is returned. -/
theorem c7_encode_diagnostics (st : ProcState) (bname : String) (obj : PyVal)
    (pt : Option String) :
    (∀ msg, (get_binding st bname).encode obj pt = .error (.notImplementedError msg) →
      to_outgoing_proto st bname obj pt = .error (.typeError
        ("unable to encode outgoing TypedData: unsupported type \x22"
          ++ (get_binding st bname).name ++ "\x22 for Python type \x22"
          ++ obj.typeName ++ "\x22"))) ∧
    (∀ d, (get_binding st bname).encode obj pt = .ok d →
      to_outgoing_proto st bname obj pt = d.as_proto) := by
  constructor
  · intro msg h; simp [to_outgoing_proto, h]
  · intro d h; simp [to_outgoing_proto, h]

/-- A binding whose `encode` always signals unimplemented-conversion, used
to witness the C7 error path. -/
def c7RejectingBinding : Binding where
  name := "c7RejectingBinding"
  decode := fun _ _ => .error (.notImplementedError "cannot decode")
  encode := fun _ _ => .error (.notImplementedError "cannot encode")

/-- A binding whose `encode` wraps the value as a json Datum, used to
witness the C7 success path. -/
def c7JsonBinding : Binding where
  name := "c7JsonBinding"
  decode := fun d _ => .ok (.datum d.value d.type)
  encode := fun v _ =>
    match v with
    | .str s => .ok (mkDatum (.str s) "json")
    | _ => .error (.notImplementedError "unsupported")

/-- Witness for C7: the diagnostic names the binding and the runtime type
of the value; a successful `encode` is followed by `as_proto`. -/
theorem c7_encode_diagnostics_witness :
    to_outgoing_proto ⟨some [("b", c7RejectingBinding)]⟩ "b" (.int 3) Option.none
      = .error (.typeError
        ("unable to encode outgoing TypedData: unsupported type \x22"
          ++ c7RejectingBinding.name ++ "\x22 for Python type \x22"
          ++ PyVal.typeName (.int 3) ++ "\x22")) ∧
    to_outgoing_proto ⟨some [("b", c7JsonBinding)]⟩ "b" (.str "v") Option.none
      = Datum.as_proto (mkDatum (.str "v") "json") :=
  ⟨(c7_encode_diagnostics ⟨some [("b", c7RejectingBinding)]⟩ "b" (.int 3)
      Option.none).1 "cannot encode" rfl,
   (c7_encode_diagnostics ⟨some [("b", c7JsonBinding)]⟩ "b" (.str "v")
      Option.none).2 (mkDatum (.str "v") "json") rfl⟩

/-- `exceptAny` agrees with `List.any` whenever the element test never
raises. -/
theorem exceptAny_ok {α : Type} (f : α → Except PyErr Bool) (g : α → Bool)
    (l : List α) (h : ∀ x ∈ l, f x = .ok (g x)) :
    exceptAny f l = .ok (l.any g) := by
  induction l with
  | nil => rfl
  | cons x xs ih =>
    have hx := h x (List.mem_cons_self x xs)
    have hrest : ∀ y ∈ xs, f y = .ok (g y) := fun y hy => h y (List.mem_cons_of_mem x hy)
    cases hg : g x with
    | true => simp [exceptAny, hx, hg]
    | false => simp [exceptAny, hx, hg, ih hrest]

/-- `List.any` over a constantly false test. -/
theorem any_const_false {α : Type} (l : List α) : l.any (fun _ => false) = false := by
  induction l <;> simp_all

/-- A constant conjunct factors out of `List.any`. -/
theorem any_and_left {α : Type} (c : Bool) (p : α → Bool) (l : List α) :
    l.any (fun a => c && p a) = (c && l.any p) := by
  cases c with
  | false => simp [any_const_false]
  | true => simp

/-- The inner comparison loop of the matcher, when every type argument is
a concrete class: it never raises and computes the guarded subclass
test. -/
theorem matcher_inner_ok (t : PyType) (args : List PyType)
    (h : ∀ a ∈ args, ∃ n, a = .prim n) :
    exceptAny (fun arg => if isType t then pyIssubclass t arg else .ok false) args
      = .ok (args.any (fun arg => isType t && primSub t arg)) := by
  apply exceptAny_ok
  intro a ha
  obtain ⟨n, rfl⟩ := h a ha
  cases t <;> simp [isType, pyIssubclass, primSub]

/-- The inner comparison loop of the matcher short-circuits to false for a
non-type candidate, whatever the type arguments are. -/
theorem matcher_inner_false (t : PyType) (args : List PyType) (h : isType t = false) :
    exceptAny (fun arg => if isType t then pyIssubclass t arg else .ok false) args
      = .ok false := by
  have h2 := exceptAny_ok
    (fun arg => if isType t then pyIssubclass t arg else .ok false)
    (fun _ => false) args (by intro a ha; simp [h])
  simpa [any_const_false] using h2

/-- `issubclass` on two concrete classes computes the boolean subclass
test. -/
theorem pyIssubclass_prim (x y : String) :
    pyIssubclass (.prim x) (.prim y) = .ok (primSub (.prim x) (.prim y)) := rfl

/-- Unfolding of the matcher on a non-generic annotation. -/
theorem matcher_not_generic (anno pt : PyType) (h : is_generic_type anno = false) :
    is_iterable_type_annotation anno pt = .ok false := by
  simp [ is_iterable_type_annotation, h]

/-- Unfolding of the matcher when the generic's origin is not a subclass
of Iterable. -/
theorem matcher_gate_false (o : String) (args : List PyType) (pt : PyType)
    (hb : primSub (.prim o) (.prim "Iterable") = false) :
    is_iterable_type_annotation (.generic o args) pt = .ok false := by
  simp only [ is_iterable_type_annotation, is_generic_type, get_origin,
    pyIssubclass_prim, hb]

/-- Unfolding of the matcher on a generic without type arguments. -/
theorem matcher_no_args (o : String) (pt : PyType) :
    is_iterable_type_annotation (.generic o []) pt = .ok false := by
  cases hb : primSub (.prim o) (.prim "Iterable") with
  | false => exact matcher_gate_false o [] pt hb
  | true =>
    simp only [ is_iterable_type_annotation, is_generic_type, get_origin,
      pyIssubclass_prim, hb, get_args]

/-- Unfolding of the matcher at an iterable generic with arguments and a
tuple candidate: the double comparison loop. -/
theorem matcher_tup_eq (o : String) (a0 : PyType) (rest ts : List PyType)
    (hb : primSub (.prim o) (.prim "Iterable") = true) :
    is_iterable_type_annotation (.generic o (a0 :: rest)) (.tup ts)
      = exceptAny (fun t => exceptAny (fun arg =>
          if isType t then pyIssubclass t arg else .ok false) (a0 :: rest)) ts := by
  simp only [ is_iterable_type_annotation, is_generic_type, get_origin,
    pyIssubclass_prim, hb, get_args]

/-- Unfolding of the matcher at an iterable generic with arguments and a
single (non-tuple) candidate: the single comparison loop. -/
theorem matcher_single_eq (o : String) (a0 : PyType) (rest : List PyType) (pt : PyType)
    (hb : primSub (.prim o) (.prim "Iterable") = true)
    (hnt : ∀ l, pt ≠ .tup l) :
    is_iterable_type_annotation (.generic o (a0 :: rest)) pt
      = exceptAny (fun arg => if isType pt then pyIssubclass pt arg else .ok false)
          (a0 :: rest) := by
  cases pt with
  | tup l => exact absurd rfl (hnt l)
  | prim n =>
    simp only [ is_iterable_type_annotation, is_generic_type, get_origin,
      pyIssubclass_prim, hb, get_args]
  | generic o2 args2 =>
    simp only [ is_iterable_type_annotation, is_generic_type, get_origin,
      pyIssubclass_prim, hb, get_args]
  | union args2 =>
    simp only [ is_iterable_type_annotation, is_generic_type, get_origin,
      pyIssubclass_prim, hb, get_args]
  | obj n =>
    simp only [ is_iterable_type_annotation, is_generic_type, get_origin,
      pyIssubclass_prim, hb, get_args]

/-- C3 (amended): the matcher fails closed to `ok false` for a
non-generic annotation, for a generic whose origin is not a subtype of
Iterable, and for an annotation without type arguments; it never raises
when every type argument is a concrete class; and a non-type candidate
(single, or every element of a tuple) short-circuits to `ok false` even
when a type argument is not a class.  What the original claim adds — that
a non-type type argument also yields false — is refuted by the
counterexample: there the comparison raises a `TypeError`. -/
theorem c3_matcher_safety (anno pt : PyType) :
    (is_generic_type anno = false → is_iterable_type_annotation anno pt = .ok false) ∧
    (∀ o args, anno = .generic o args → primSub (.prim o) (.prim "Iterable") = false →
      is_iterable_type_annotation anno pt = .ok false) ∧
    (∀ o, anno = .generic o [] → is_iterable_type_annotation anno pt = .ok false) ∧
    ((∀ a ∈ get_args anno, ∃ n, a = .prim n) →
      ∃ b, is_iterable_type_annotation anno pt = .ok b) ∧
    ((∀ l, pt ≠ .tup l) → isType pt = false →
      is_iterable_type_annotation anno pt = .ok false) ∧
    (∀ ts, pt = .tup ts → (∀ t ∈ ts, isType t = false) →
      is_iterable_type_annotation anno pt = .ok false) := by
  refine ⟨matcher_not_generic anno pt, ?_, ?_, ?_, ?_, ?_⟩
  · rintro o args rfl hb
    exact matcher_gate_false o args pt hb
  · rintro o rfl
    exact matcher_no_args o pt
  · intro h
    cases anno with
    | generic o args =>
      cases hb : primSub (.prim o) (.prim "Iterable") with
      | false => exact ⟨false, matcher_gate_false o args pt hb⟩
      | true =>
        cases args with
        | nil => exact ⟨false, matcher_no_args o pt⟩
        | cons a0 rest =>
          simp only [get_args] at h
          by_cases htup : ∃ ts, pt = .tup ts
          · obtain ⟨ts, rfl⟩ := htup
            refine ⟨ts.any (fun t => (a0 :: rest).any
              (fun arg => isType t && primSub t arg)), ?_⟩
            rw [matcher_tup_eq o a0 rest ts hb]
            exact exceptAny_ok _
              (fun t => (a0 :: rest).any (fun arg => isType t && primSub t arg)) ts
              (fun t ht => matcher_inner_ok t (a0 :: rest) h)
          · have hnt : ∀ l, pt ≠ .tup l := fun l hl => htup ⟨l, hl⟩
            refine ⟨(a0 :: rest).any (fun arg => isType pt && primSub pt arg), ?_⟩
            rw [matcher_single_eq o a0 rest pt hb hnt]
            exact matcher_inner_ok pt (a0 :: rest) h
    | prim n => exact ⟨false, matcher_not_generic _ pt rfl⟩
    | union args => exact ⟨false, matcher_not_generic _ pt rfl⟩
    | tup elems => exact ⟨false, matcher_not_generic _ pt rfl⟩
    | obj n => exact ⟨false, matcher_not_generic _ pt rfl⟩
  · intro hnt hti
    cases anno with
    | generic o args =>
      cases hb : primSub (.prim o) (.prim "Iterable") with
      | false => exact matcher_gate_false o args pt hb
      | true =>
        cases args with
        | nil => exact matcher_no_args o pt
        | cons a0 rest =>
          rw [matcher_single_eq o a0 rest pt hb hnt]
          exact matcher_inner_false pt (a0 :: rest) hti
    | prim n => exact matcher_not_generic _ pt rfl
    | union args => exact matcher_not_generic _ pt rfl
    | tup elems => exact matcher_not_generic _ pt rfl
    | obj n => exact matcher_not_generic _ pt rfl
  · rintro ts rfl hts
    cases anno with
    | generic o args =>
      cases hb : primSub (.prim o) (.prim "Iterable") with
      | false => exact matcher_gate_false o args (.tup ts) hb
      | true =>
        cases args with
        | nil => exact matcher_no_args o (.tup ts)
        | cons a0 rest =>
          rw [matcher_tup_eq o a0 rest ts hb]
          have houter := exceptAny_ok _ (fun _ : PyType => false) ts
            (fun t ht => matcher_inner_false t (a0 :: rest) (hts t ht))
          rw [houter, any_const_false]
    | prim n => exact matcher_not_generic _ _ rfl
    | union args => exact matcher_not_generic _ _ rfl
    | tup elems => exact matcher_not_generic _ _ rfl
    | obj n => exact matcher_not_generic _ _ rfl

/-- Witness for C3: a non-generic annotation, an argument-less generic, an
all-class-argument generic, and a non-type candidate against a Union
argument. -/
theorem c3_matcher_safety_witness :
    is_iterable_type_annotation (.prim "int") (.prim "int") = .ok false ∧
    is_iterable_type_annotation (.generic "list" []) (.prim "int") = .ok false ∧
    (∃ b, is_iterable_type_annotation (.generic "list" [.prim "int"]) (.prim "int")
      = .ok b) ∧
    is_iterable_type_annotation (.generic "list" [.union [.prim "int", .prim "str"]])
        (.obj "model") = .ok false := by
  refine ⟨(c3_matcher_safety (.prim "int") (.prim "int")).1 rfl,
    (c3_matcher_safety (.generic "list" []) (.prim "int")).2.2.1 "list" rfl,
    (c3_matcher_safety (.generic "list" [.prim "int"]) (.prim "int")).2.2.2.1 ?_,
    (c3_matcher_safety (.generic "list" [.union [.prim "int", .prim "str"]])
        (.obj "model")).2.2.2.2.1 ?_ rfl⟩
  · intro a ha
    simp only [get_args, List.mem_singleton] at ha
    exact ⟨"int", ha⟩
  · intro l h
    exact PyType.noConfusion h

/-- C3 counterexample: a concrete-type candidate compared against a
non-type type argument (a Union) makes the matcher raise a `TypeError`
instead of yielding false. -/
theorem c3_union_arg_raises :
    is_iterable_type_annotation (.generic "list" [.union [.prim "int", .prim "str"]])
        (.prim "int")
      = .error (.typeError "issubclass() arg 2 must be a class or tuple of classes") := rfl

/-- C6 (amended): over a parameterized iterable annotation whose type
arguments are all concrete classes, the tuple-of-candidates form returns
true iff some candidate is a concrete type and a subtype of some type
argument; when a type argument is not a class — as in
`List[Union[int, str]]` with candidate tuple `(int,)` — the matcher
instead raises a `TypeError` (see the counterexample). -/
theorem c6_tuple_any_match (o : String) (args ts : List PyType)
    (h1 : primSub (.prim o) (.prim "Iterable") = true)
    (h2 : args ≠ [])
    (h3 : ∀ a ∈ args, ∃ n, a = .prim n) :
    is_iterable_type_annotation (.generic o args) (.tup ts)
      = .ok (ts.any (fun t => isType t && args.any (fun a => primSub t a))) := by
  cases args with
  | nil => exact absurd rfl h2
  | cons a0 rest =>
    rw [matcher_tup_eq o a0 rest ts h1]
    have houter := exceptAny_ok _
      (fun t => (a0 :: rest).any (fun arg => isType t && primSub t arg)) ts
      (fun t ht => matcher_inner_ok t (a0 :: rest) h3)
    rw [houter]
    have hpt : ∀ t : PyType, (a0 :: rest).any (fun arg => isType t && primSub t arg)
        = (isType t && (a0 :: rest).any (fun a => primSub t a)) :=
      fun t => any_and_left (isType t) (fun a => primSub t a) (a0 :: rest)
    simp only [hpt]

/-- Witness for C6: `List[int]` against the candidate tuples `(int,)` and
`(str,)`. -/
theorem c6_tuple_any_match_witness :
    is_iterable_type_annotation (.generic "list" [.prim "int"]) (.tup [.prim "int"])
      = .ok true ∧
    is_iterable_type_annotation (.generic "list" [.prim "int"]) (.tup [.prim "str"])
      = .ok false := by
  constructor
  · have h := c6_tuple_any_match "list" [.prim "int"] [.prim "int"] rfl
      (by intro h; exact List.noConfusion h)
      (by intro a ha; simp only [List.mem_singleton] at ha; exact ⟨"int", ha⟩)
    simpa [isType, primSub, supers] using h
  · have h := c6_tuple_any_match "list" [.prim "int"] [.prim "str"] rfl
      (by intro h; exact List.noConfusion h)
      (by intro a ha; simp only [List.mem_singleton] at ha; exact ⟨"int", ha⟩)
    simpa [isType, primSub, supers] using h

/-- C6 counterexample: exactly the claim's cited instance
`is_iterable_type_annotation(List[Union[int, str]], (int,))` raises a
`TypeError` rather than returning true. -/
theorem c6_union_tuple_raises :
    is_iterable_type_annotation (.generic "list" [.union [.prim "int", .prim "str"]])
        (.tup [.prim "int"])
      = .error (.typeError "issubclass() arg 2 must be a class or tuple of classes") ∧
    is_iterable_type_annotation (.generic "list" [.union [.prim "int", .prim "str"]])
        (.tup [.prim "int"]) ≠ .ok true := by
  have h1 : is_iterable_type_annotation
      (.generic "list" [.union [.prim "int", .prim "str"]]) (.tup [.prim "int"])
      = .error (.typeError "issubclass() arg 2 must be a class or tuple of classes") := rfl
  refine ⟨h1, ?_⟩
  intro h2
  rw [h1] at h2
  exact Except.noConfusion h2

end Meta
